import Mathlib

set_option autoImplicit false

/-!
Verification of the route-access gate (`src/middleware.ts`) and the database
module initialization (`src/lib/db.ts`) of the `authjs-v5-oauth-middleware`
repository, shallowly embedded in Lean 4.

Strings model JavaScript strings; `strStartsWith s p` embeds
`s.startsWith(p)` as a prefix test on the character lists.
-/

/-- Embedding of JavaScript `s.startsWith(p)`: `p` is a prefix of `s`. -/
def strStartsWith (s p : String) : Bool :=
  p.data.isPrefixOf s.data

/-- Authentication verdict produced by the session resolver:
either authenticated as a concrete user, or unauthenticated. -/
inductive AuthVerdict : Type
  | authenticated (userId : Nat)
  | unauthenticated
deriving DecidableEq, Repr

/-- The gate decision: allow the request through (the middleware callback in
the source returns no response), or redirect to a path. -/
inductive GateDecision : Type
  | allow
  | redirectTo (path : String)
deriving DecidableEq, Repr

/-- Configuration of the gate: the login path, the private route prefixes,
and the application home path used when redirecting away from login.
`src/middleware.ts` hardcodes these as `"/login"`, `privateRoutes`, and
`"/dashboard"`. -/
structure GateConfig : Type where
  loginPath : String
  privateRoutes : List String
  appHome : String
deriving DecidableEq, Repr

/-- `privateRoutes` from `src/middleware.ts`. -/
def privateRoutes : List String := ["/dashboard", "/deneme"]

/-- `!!req.auth` from `src/middleware.ts`: whether the verdict is authenticated. -/
def isLoggedIn : AuthVerdict → Bool
  | .authenticated _ => true
  | .unauthenticated => false

/-- The route-access gate: direct embedding of the middleware callback in
`src/middleware.ts`, parameterized by the configuration values that the
source hardcodes. The callback returning no response corresponds to
`GateDecision.allow`. -/
def gate (cfg : GateConfig) (v : AuthVerdict) (pathname : String) : GateDecision :=
  let isLoginRoute := strStartsWith pathname cfg.loginPath
  if isLoggedIn v && isLoginRoute then
    .redirectTo cfg.appHome
  else if !(isLoggedIn v) && cfg.privateRoutes.any (fun route => strStartsWith pathname route) then
    .redirectTo cfg.loginPath
  else
    .allow

/-- The configuration hardcoded in `src/middleware.ts`. -/
def middlewareConfig : GateConfig :=
  { loginPath := "/login", privateRoutes := privateRoutes, appHome := "/dashboard" }

/-- The gate exactly as instantiated in `src/middleware.ts`. -/
def middlewareGate (v : AuthVerdict) (pathname : String) : GateDecision :=
  gate middlewareConfig v pathname

/-- Session payload carried by `req.auth` when the requester is authenticated. -/
structure Session : Type where
  userId : Nat
deriving DecidableEq, Repr

/-- The verdict extracted from `req.auth`: an absent session (`req.auth` falsy)
is unauthenticated, a present session is authenticated. -/
def toVerdict : Option Session → AuthVerdict
  | some s => .authenticated s.userId
  | none => .unauthenticated

/-- The middleware callback at the request level: `req.auth` is an optional
session, the decision is the gate applied to the extracted verdict and the
request pathname. -/
def middlewareCallback (a : Option Session) (pathname : String) : GateDecision :=
  gate middlewareConfig (toVerdict a) pathname

/-- Evaluation relation for one invocation of the gate, mirroring the
control flow of the middleware callback: the first branch fires when the
requester is logged in and on the login route, the second when the requester
is not logged in and on a private route and the first branch did not fire,
and otherwise the request is allowed. -/
inductive GateEval (cfg : GateConfig) : AuthVerdict → String → GateDecision → Prop
  | loginRedirect (v : AuthVerdict) (p : String) :
      (isLoggedIn v && strStartsWith p cfg.loginPath) = true →
      GateEval cfg v p (.redirectTo cfg.appHome)
  | privateRedirect (v : AuthVerdict) (p : String) :
      (isLoggedIn v && strStartsWith p cfg.loginPath) = false →
      (!(isLoggedIn v) && cfg.privateRoutes.any (fun route => strStartsWith p route)) = true →
      GateEval cfg v p (.redirectTo cfg.loginPath)
  | allowRest (v : AuthVerdict) (p : String) :
      (isLoggedIn v && strStartsWith p cfg.loginPath) = false →
      (!(isLoggedIn v) && cfg.privateRoutes.any (fun route => strStartsWith p route)) = false →
      GateEval cfg v p .allow

/-! Model of `src/lib/db.ts`. -/

/-- A MongoDB client handle: the connection string it was created with, and
an allocation tag distinguishing the results of distinct `new MongoClient`
constructions. -/
structure MongoClient : Type where
  uri : String
  id : Nat
deriving DecidableEq, Repr

/-- Process-wide state seen by the database module: the development-mode
global `global._mongoClient`, and the next allocation tag handed out by
`new MongoClient`. -/
structure DbGlobal : Type where
  mongoClient : Option MongoClient
  nextId : Nat
deriving DecidableEq, Repr

/-- Environment visible to `src/lib/db.ts`: `process.env.MONGODB_URI`
(absent, or present with a string value) and `process.env.NODE_ENV`. -/
structure DbEnv : Type where
  mongodbUri : Option String
  nodeEnv : String
deriving DecidableEq, Repr

/-- JavaScript truthiness test `!process.env.MONGODB_URI`: an absent
variable and the empty string are both falsy. -/
def envFalsy : Option String → Bool
  | none => true
  | some s => s == ""

/-- Evaluation of the module body of `src/lib/db.ts`: throws (as `.error`)
when `MONGODB_URI` is falsy; in development mode reuses
`global._mongoClient` when set and otherwise creates and stores a fresh
client; in production mode creates a fresh client unconditionally. The
result is the exported client together with the updated process state. -/
def dbModuleInit (env : DbEnv) (g : DbGlobal) : Except String (MongoClient × DbGlobal) :=
  match env.mongodbUri with
  | none => .error "Invalid/Missing environment variable: \"MONGODB_URI\""
  | some uri =>
    if uri == "" then
      .error "Invalid/Missing environment variable: \"MONGODB_URI\""
    else if env.nodeEnv == "development" then
      match g.mongoClient with
      | some c => .ok (c, g)
      | none =>
        let c : MongoClient := { uri := uri, id := g.nextId }
        .ok (c, { mongoClient := some c, nextId := g.nextId + 1 })
    else
      .ok ({ uri := uri, id := g.nextId }, { g with nextId := g.nextId + 1 })

/-! Sanity checks of the embedding on the spec's concrete scenarios. -/

example : middlewareGate .unauthenticated "/dashboard" = .redirectTo "/login" := by decide
example : middlewareGate (.authenticated 42) "/dashboard" = .allow := by decide
example : middlewareGate (.authenticated 42) "/login" = .redirectTo "/dashboard" := by decide
example : middlewareGate .unauthenticated "/login" = .allow := by decide
example : middlewareGate .unauthenticated "/" = .allow := by decide

/-! Claims about the route-access gate. -/

/-- C1: the gate evaluates its rules in fixed precedence order with first
match winning: authenticated on the login path redirects to app-home;
otherwise unauthenticated on a private prefix redirects to the login path;
otherwise the request is allowed. -/
theorem gate_precedence (cfg : GateConfig) (v : AuthVerdict) (p : String) :
    (isLoggedIn v = true → strStartsWith p cfg.loginPath = true →
      gate cfg v p = .redirectTo cfg.appHome)
    ∧ (¬ (isLoggedIn v = true ∧ strStartsWith p cfg.loginPath = true) →
        isLoggedIn v = false →
        cfg.privateRoutes.any (fun route => strStartsWith p route) = true →
        gate cfg v p = .redirectTo cfg.loginPath)
    ∧ (¬ (isLoggedIn v = true ∧ strStartsWith p cfg.loginPath = true) →
        ¬ (isLoggedIn v = false ∧
            cfg.privateRoutes.any (fun route => strStartsWith p route) = true) →
        gate cfg v p = .allow) := by
  cases hl : isLoggedIn v <;>
    cases hs : strStartsWith p cfg.loginPath <;>
      cases hp : cfg.privateRoutes.any (fun route => strStartsWith p route) <;>
        simp [gate, hl, hs, hp]

/-- Witness for C1: the first rule at the source's own configuration. -/
theorem gate_precedence_witness :
    gate middlewareConfig (.authenticated 1) "/login" = .redirectTo "/dashboard" :=
  (gate_precedence middlewareConfig (.authenticated 1) "/login").1 (by decide) (by decide)

/-- C2 counterexample: with an empty private-route list, an authenticated
request to the login path is redirected to app-home, not allowed. -/
theorem gate_emptyPrivate_counterexample :
    gate { loginPath := "/login", privateRoutes := [], appHome := "/dashboard" }
        (.authenticated 0) "/login" = .redirectTo "/dashboard"
    ∧ gate { loginPath := "/login", privateRoutes := [], appHome := "/dashboard" }
        (.authenticated 0) "/login" ≠ .allow := by
  decide

/-- C2 amended: with an empty private-route list the gate allows every
request, except that an authenticated request whose path starts with the
login path is still redirected to app-home. -/
theorem gate_emptyPrivate_allow (cfg : GateConfig) (v : AuthVerdict) (p : String)
    (hemp : cfg.privateRoutes = [])
    (hexc : ¬ (isLoggedIn v = true ∧ strStartsWith p cfg.loginPath = true)) :
    gate cfg v p = .allow := by
  cases hl : isLoggedIn v <;>
    cases hs : strStartsWith p cfg.loginPath <;>
      simp [gate, hl, hs, hemp] at hexc ⊢

/-- Witness for the amended C2 at a concrete configuration and request. -/
theorem gate_emptyPrivate_allow_witness :
    gate { loginPath := "/login", privateRoutes := [], appHome := "/dashboard" }
        .unauthenticated "/dashboard" = .allow :=
  gate_emptyPrivate_allow _ .unauthenticated "/dashboard" rfl (by decide)

/-- C3 counterexample: the path `/loginx` starts with no private prefix and
is not the login path `/login`, yet an authenticated request to it is
redirected (it starts with the login path), so the exception is not the
single case where the path equals the login path. -/
theorem gate_nonPrivate_counterexample :
    privateRoutes.any (fun route => strStartsWith "/loginx" route) = false
    ∧ "/loginx" ≠ "/login"
    ∧ middlewareGate (.authenticated 0) "/loginx" = .redirectTo "/dashboard"
    ∧ middlewareGate (.authenticated 0) "/loginx" ≠ .allow := by
  decide

/-- C3 amended: every request whose path starts with no configured private
prefix is allowed, except when the verdict is authenticated and the path
starts with (rather than equals) the login path. -/
theorem gate_nonPrivate_allow (cfg : GateConfig) (v : AuthVerdict) (p : String)
    (hpriv : cfg.privateRoutes.any (fun route => strStartsWith p route) = false)
    (hexc : ¬ (isLoggedIn v = true ∧ strStartsWith p cfg.loginPath = true)) :
    gate cfg v p = .allow := by
  cases hl : isLoggedIn v <;>
    cases hs : strStartsWith p cfg.loginPath <;>
      simp [gate, hl, hs, hpriv] at hexc ⊢

/-- Witness for the amended C3 at the source's configuration. -/
theorem gate_nonPrivate_allow_witness :
    gate middlewareConfig .unauthenticated "/about" = .allow :=
  gate_nonPrivate_allow middlewareConfig .unauthenticated "/about" (by decide) (by decide)

/-- C4: every request whose path starts with a configured private prefix is,
when unauthenticated, redirected to the login path; in particular the
source's gate sends an unauthenticated `/dashboard` request to `/login`. -/
theorem gate_private_unauthenticated (cfg : GateConfig) (p : String)
    (hpriv : cfg.privateRoutes.any (fun route => strStartsWith p route) = true) :
    gate cfg .unauthenticated p = .redirectTo cfg.loginPath
    ∧ middlewareGate .unauthenticated "/dashboard" = .redirectTo "/login" := by
  refine ⟨?_, by decide⟩
  simp [gate, isLoggedIn, hpriv]

/-- Witness for C4 at the source's configuration and the path `/dashboard`. -/
theorem gate_private_unauthenticated_witness :
    gate middlewareConfig .unauthenticated "/dashboard" = .redirectTo "/login"
    ∧ middlewareGate .unauthenticated "/dashboard" = .redirectTo "/login" :=
  gate_private_unauthenticated middlewareConfig "/dashboard" (by decide)

/-- C5: the four concrete scenarios at the source's configuration:
authenticated `/dashboard` is allowed, authenticated `/login` is redirected
to `/dashboard`, unauthenticated `/login` and unauthenticated `/` are
allowed. -/
theorem middlewareGate_scenarios :
    middlewareGate (.authenticated 42) "/dashboard" = .allow
    ∧ middlewareGate (.authenticated 42) "/login" = .redirectTo "/dashboard"
    ∧ middlewareGate .unauthenticated "/login" = .allow
    ∧ middlewareGate .unauthenticated "/" = .allow := by
  decide

/-- C6: the gate is deterministic and free of hidden state: any two
evaluations of one invocation agree, and both equal the pure function
`gate` of the configuration, verdict and path alone — so the private/public
classification and the decision depend on nothing else. -/
theorem gate_deterministic (cfg : GateConfig) (v : AuthVerdict) (p : String)
    (d₁ d₂ : GateDecision)
    (h₁ : GateEval cfg v p d₁) (h₂ : GateEval cfg v p d₂) :
    d₁ = d₂ ∧ d₁ = gate cfg v p := by
  have hfun : ∀ d : GateDecision, GateEval cfg v p d → d = gate cfg v p := by
    intro d hd
    cases hd with
    | loginRedirect hg => simp [gate, hg]
    | privateRedirect hg hp =>
      simp only [Bool.and_eq_true] at hp
      simp [gate, hg, hp.1, hp.2]
    | allowRest hg hp => simp [gate, hg, hp]
  exact ⟨(hfun d₁ h₁).trans (hfun d₂ h₂).symm, hfun d₁ h₁⟩

/-- Witness for C6: two evaluations of the unauthenticated `/dashboard`
request agree and equal the gate's output. -/
theorem gate_deterministic_witness :
    (GateDecision.redirectTo "/login") = (GateDecision.redirectTo "/login")
    ∧ (GateDecision.redirectTo "/login")
        = gate middlewareConfig .unauthenticated "/dashboard" :=
  gate_deterministic middlewareConfig .unauthenticated "/dashboard" _ _
    (GateEval.privateRedirect _ _ (by decide) (by decide))
    (GateEval.privateRedirect _ _ (by decide) (by decide))

/-- C7: the gate is total — every invocation evaluates to some decision —
and a request with no (falsy) session data is handled exactly as an
unauthenticated one, by the redirect policy rather than by an error. -/
theorem gate_total (cfg : GateConfig) (v : AuthVerdict) (p : String)
    (a : Option Session) (ha : a.isSome = false) :
    (∃ d : GateDecision, GateEval cfg v p d)
    ∧ middlewareCallback a p = gate middlewareConfig .unauthenticated p := by
  constructor
  · cases hg : (isLoggedIn v && strStartsWith p cfg.loginPath) with
    | true => exact ⟨_, GateEval.loginRedirect v p hg⟩
    | false =>
      cases hp : (!(isLoggedIn v)
          && cfg.privateRoutes.any (fun route => strStartsWith p route)) with
      | true => exact ⟨_, GateEval.privateRedirect v p hg hp⟩
      | false => exact ⟨_, GateEval.allowRest v p hg hp⟩
  · cases a with
    | none => rfl
    | some s => simp at ha

/-- Witness for C7: an absent session on `/deneme` under any verdict input. -/
theorem gate_total_witness :
    (∃ d : GateDecision, GateEval middlewareConfig (.authenticated 7) "/deneme" d)
    ∧ middlewareCallback none "/deneme"
        = gate middlewareConfig .unauthenticated "/deneme" :=
  gate_total middlewareConfig (.authenticated 7) "/deneme" none rfl

/-- C10: the gate never issues a wrong-direction redirect: an authenticated
request is never redirected to the login path, and an unauthenticated
request is never redirected to app-home. -/
theorem middlewareGate_no_wrong_redirect (v : AuthVerdict) (p : String) :
    (isLoggedIn v = true → middlewareGate v p ≠ .redirectTo "/login")
    ∧ (v = .unauthenticated → middlewareGate v p ≠ .redirectTo "/dashboard") := by
  constructor
  · intro hl
    cases hs : strStartsWith p "/login" <;>
      simp [middlewareGate, gate, middlewareConfig, hl, hs]
  · rintro rfl
    cases hp : privateRoutes.any (fun route => strStartsWith p route) <;>
      simp [middlewareGate, gate, middlewareConfig, isLoggedIn, hp]

/-- Witness for C10: an authenticated request to `/login` is not redirected
to the login path. -/
theorem middlewareGate_no_wrong_redirect_witness :
    middlewareGate (.authenticated 3) "/login" ≠ .redirectTo "/login" :=
  (middlewareGate_no_wrong_redirect (.authenticated 3) "/login").1 rfl

/-! Claims about the database module. -/

/-- C8 counterexample: `MONGODB_URI` present but equal to the empty string
is falsy in JavaScript, so module initialization still throws even though
the variable is present. -/
theorem dbInit_present_error_counterexample :
    (some "" : Option String) ≠ none
    ∧ dbModuleInit { mongodbUri := some "", nodeEnv := "production" }
        { mongoClient := none, nextId := 0 }
      = .error "Invalid/Missing environment variable: \"MONGODB_URI\"" :=
  ⟨by decide, by rfl⟩

/-- C8 amended: when `MONGODB_URI` is falsy (absent or the empty string),
module initialization raises the fatal error and creates no client handle;
when it is present and nonempty, initialization succeeds without error. -/
theorem dbInit_uri_guard (env : DbEnv) (g : DbGlobal) :
    (envFalsy env.mongodbUri = true →
      dbModuleInit env g
        = .error "Invalid/Missing environment variable: \"MONGODB_URI\"")
    ∧ (envFalsy env.mongodbUri = false →
        ∃ c : MongoClient, ∃ g2 : DbGlobal, dbModuleInit env g = .ok (c, g2)) := by
  constructor
  · intro hf
    cases hu : env.mongodbUri with
    | none => simp [dbModuleInit, hu]
    | some uri =>
      rw [hu] at hf
      simp only [envFalsy, beq_iff_eq] at hf
      simp [dbModuleInit, hu, hf]
  · intro hf
    cases hu : env.mongodbUri with
    | none => rw [hu] at hf; simp [envFalsy] at hf
    | some uri =>
      rw [hu] at hf
      simp only [envFalsy, beq_eq_false_iff_ne, ne_eq] at hf
      by_cases hd : env.nodeEnv = "development"
      · cases hc : g.mongoClient with
        | some c => exact ⟨c, g, by simp [dbModuleInit, hu, hf, hd, hc]⟩
        | none =>
          exact ⟨{ uri := uri, id := g.nextId },
            { mongoClient := some { uri := uri, id := g.nextId },
              nextId := g.nextId + 1 },
            by simp [dbModuleInit, hu, hf, hd, hc]⟩
      · exact ⟨{ uri := uri, id := g.nextId }, { g with nextId := g.nextId + 1 },
          by simp [dbModuleInit, hu, hf, hd]⟩

/-- Witness for the amended C8: an absent variable errors and a concrete
nonempty connection string succeeds. -/
theorem dbInit_uri_guard_witness :
    (dbModuleInit { mongodbUri := none, nodeEnv := "production" }
        { mongoClient := none, nextId := 0 }
      = .error "Invalid/Missing environment variable: \"MONGODB_URI\"")
    ∧ ∃ c : MongoClient, ∃ g2 : DbGlobal,
        dbModuleInit { mongodbUri := some "mongodb://db", nodeEnv := "production" }
          { mongoClient := none, nextId := 0 } = .ok (c, g2) :=
  ⟨(dbInit_uri_guard { mongodbUri := none, nodeEnv := "production" }
      { mongoClient := none, nextId := 0 }).1 rfl,
    (dbInit_uri_guard { mongodbUri := some "mongodb://db", nodeEnv := "production" }
      { mongoClient := none, nextId := 0 }).2 (by decide)⟩

/-- C9 counterexample: in production mode two evaluations of the module
body create two distinct client handles — initialization is not a memoized
singleton across module evaluations, only the development-mode global is. -/
theorem dbInit_production_counterexample :
    dbModuleInit { mongodbUri := some "mongodb://db", nodeEnv := "production" }
        { mongoClient := none, nextId := 0 }
      = .ok ({ uri := "mongodb://db", id := 0 }, { mongoClient := none, nextId := 1 })
    ∧ dbModuleInit { mongodbUri := some "mongodb://db", nodeEnv := "production" }
        { mongoClient := none, nextId := 1 }
      = .ok ({ uri := "mongodb://db", id := 1 }, { mongoClient := none, nextId := 2 })
    ∧ ({ uri := "mongodb://db", id := 0 } : MongoClient)
        ≠ { uri := "mongodb://db", id := 1 } :=
  ⟨by rfl, by rfl, by decide⟩

/-- C9 amended: in development mode the module memoizes the handle in the
process global — a second evaluation returns the same handle and the same
state, and the global holds that handle; in production mode every
evaluation creates a fresh handle, distinct from the previous one. -/
theorem dbInit_memoization (env : DbEnv) (g : DbGlobal) :
    (env.nodeEnv = "development" →
      ∀ (c1 : MongoClient) (g1 : DbGlobal), dbModuleInit env g = .ok (c1, g1) →
        dbModuleInit env g1 = .ok (c1, g1) ∧ g1.mongoClient = some c1)
    ∧ (env.nodeEnv ≠ "development" →
        ∀ (c1 : MongoClient) (g1 : DbGlobal) (c2 : MongoClient) (g2 : DbGlobal),
          dbModuleInit env g = .ok (c1, g1) → dbModuleInit env g1 = .ok (c2, g2) →
          c1 ≠ c2) := by
  constructor
  · intro hd c1 g1 h1
    cases hu : env.mongodbUri with
    | none => simp [dbModuleInit, hu] at h1
    | some uri =>
      by_cases he : uri = ""
      · simp [dbModuleInit, hu, he] at h1
      · cases hc : g.mongoClient with
        | some c =>
          simp [dbModuleInit, hu, he, hd, hc] at h1
          obtain ⟨h1c, h1g⟩ := h1
          subst h1c; subst h1g
          exact ⟨by simp [dbModuleInit, hu, he, hd, hc], hc⟩
        | none =>
          simp [dbModuleInit, hu, he, hd, hc] at h1
          obtain ⟨h1c, h1g⟩ := h1
          subst h1c; subst h1g
          exact ⟨by simp [dbModuleInit, hu, he, hd], rfl⟩
  · intro hd c1 g1 c2 g2 h1 h2
    cases hu : env.mongodbUri with
    | none => simp [dbModuleInit, hu] at h1
    | some uri =>
      by_cases he : uri = ""
      · simp [dbModuleInit, hu, he] at h1
      · simp [dbModuleInit, hu, he, hd] at h1 h2
        obtain ⟨h1c, h1g⟩ := h1
        obtain ⟨h2c, h2g⟩ := h2
        subst h1c; subst h1g; subst h2c
        intro hcc
        have hid : g.nextId = g.nextId + 1 := congrArg MongoClient.id hcc
        omega

/-- Witness for the amended C9: a concrete development-mode first
evaluation, shown memoized by the second. -/
theorem dbInit_memoization_witness :
    dbModuleInit { mongodbUri := some "mongodb://db", nodeEnv := "development" }
        { mongoClient := some { uri := "mongodb://db", id := 0 }, nextId := 1 }
      = .ok ({ uri := "mongodb://db", id := 0 },
          { mongoClient := some { uri := "mongodb://db", id := 0 }, nextId := 1 })
    ∧ ({ mongoClient := some { uri := "mongodb://db", id := 0 }, nextId := 1 }
          : DbGlobal).mongoClient = some { uri := "mongodb://db", id := 0 } :=
  (dbInit_memoization { mongodbUri := some "mongodb://db", nodeEnv := "development" }
      { mongoClient := none, nextId := 0 }).1 rfl
    { uri := "mongodb://db", id := 0 }
    { mongoClient := some { uri := "mongodb://db", id := 0 }, nextId := 1 }
    (by rfl)
